import Mathlib

/-!
Shallow embedding of the enrollment-and-grading core of the online-course
application (`src/onlinecourse/views.py` and `src/onlinecourse/models.py`).

Django model rows become Lean structures; the database becomes an explicit
`DBState` record holding the tables as lists; each view function becomes a
Lean function that takes the state and returns the new state together with
an `Except`-typed outcome mirroring the HTTP-404 / ORM-exception behaviour
of the Python code.  Integer-valued Django fields (`grade`,
`total_enrollment`) are modelled as `Int`.
-/

namespace OnlineCourse

/-- Row of the `Course` table (`models.py`, class `Course`): identity plus
the `total_enrollment` counter; display metadata irrelevant to the claims
is reduced to the name. -/
structure Course where
  id : Nat
  name : String
  total_enrollment : Int
deriving Repr, DecidableEq

/-- Row of the `Question` table (`models.py`, class `Question`): a foreign
key to its course and the point value `grade` (IntegerField, default 50). -/
structure Question where
  id : Nat
  course : Nat
  content : String
  grade : Int
deriving Repr, DecidableEq

/-- Row of the `Choice` table (`models.py`, class `Choice`): a foreign key
to its question and the `is_correct` flag. -/
structure Choice where
  id : Nat
  question : Nat
  content : String
  is_correct : Bool
deriving Repr, DecidableEq

/-- Row of the `Enrollment` table (`models.py`, class `Enrollment`): a
(user, course) link with the enrollment `mode`. -/
structure Enrollment where
  id : Nat
  user : Nat
  course : Nat
  mode : String
deriving Repr, DecidableEq

/-- Row of the `Submission` table (`models.py`, class `Submission`): a
foreign key to an enrollment and the many-to-many set of selected choice
ids (`submission.choices`). -/
structure Submission where
  id : Nat
  enrollment : Nat
  choices : List Nat
deriving Repr, DecidableEq

/-- The persisted database state: one list per table, plus the primary-key
counters the ORM uses when creating new `Enrollment` / `Submission` rows. -/
structure DBState where
  courses : List Course
  questions : List Question
  choices : List Choice
  enrollments : List Enrollment
  submissions : List Submission
  next_enrollment_id : Nat
  next_submission_id : Nat
deriving Repr, DecidableEq

/-- Failure outcomes of the Python views: `http404` is the
`get_object_or_404` failure; the `DoesNotExist` constructors are the
uncaught ORM exceptions raised by `Model.objects.get` when no row matches
(`Enrollment.DoesNotExist` is the spec's NotEnrolled, `Http404` the spec's
NotFound); `multipleObjectsReturned` is `Model.objects.get` finding more
than one row. -/
inductive DbError
  | http404
  | enrollmentDoesNotExist
  | submissionDoesNotExist
  | multipleObjectsReturned
deriving Repr, DecidableEq

/-- `get_object_or_404(Course, pk=course_id)`: first row of the course
table with the given primary key, if any. -/
def get_course (s : DBState) (course_id : Nat) : Option Course :=
  s.courses.find? (fun c => c.id == course_id)

/-- Semantics of Django `QuerySet.get`: exactly one matching row is
returned; zero raises `DoesNotExist`, several raise
`MultipleObjectsReturned`. -/
def objects_get {α : Type} (rows : List α) (p : α → Bool)
    (missing : DbError) : Except DbError α :=
  match rows.filter p with
  | [x] => .ok x
  | [] => .error missing
  | _ => .error .multipleObjectsReturned

/-- `check_if_enrolled(user, course)` (`views.py` lines 81-89): `False`
for an anonymous user (`user.id is None`), otherwise whether the count of
`Enrollment` rows for (user, course) is positive.  The user argument is
`none` for an anonymous request and `some uid` for an authenticated
learner. -/
def check_if_enrolled (s : DBState) (user : Option Nat) (course : Course) : Bool :=
  match user with
  | none => false
  | some uid =>
    decide (0 < (s.enrollments.filter
      (fun e => e.user == uid && e.course == course.id)).length)

/-- `enroll(request, course_id)` (`views.py` lines 163-177): 404 if the
course does not exist; otherwise, when the caller is authenticated and not
yet enrolled, create an `Enrollment` with mode `honor` and save the course
with `total_enrollment` incremented by 1; in every other case leave the
state untouched (the view then redirects, modelled as `.ok ()`). -/
def enroll (s : DBState) (user : Option Nat) (course_id : Nat) :
    DBState × Except DbError Unit :=
  match get_course s course_id with
  | none => (s, .error .http404)
  | some course =>
    let is_enrolled := check_if_enrolled s user course
    match user with
    | none => (s, .ok ())
    | some uid =>
      if !is_enrolled then
        let e : Enrollment :=
          { id := s.next_enrollment_id, user := uid, course := course.id
            mode := "honor" }
        let courses := s.courses.map (fun c =>
          if c.id == course.id then
            { c with total_enrollment := c.total_enrollment + 1 }
          else c)
        ({ s with courses := courses
                  enrollments := s.enrollments ++ [e]
                  next_enrollment_id := s.next_enrollment_id + 1 }, .ok ())
      else (s, .ok ())

/-- `submit(request, course_id)` (`views.py` lines 91-102): 404 if the
course does not exist; `Enrollment.objects.get(user=user, course=course)`
raises if no (or several) enrollment rows match, before any write; on
success a fresh `Submission` row is created carrying the selected choice
ids extracted from the form, and its id is returned. -/
def submit (s : DBState) (user : Nat) (course_id : Nat)
    (selected : List Nat) : DBState × Except DbError Nat :=
  match get_course s course_id with
  | none => (s, .error .http404)
  | some course =>
    match objects_get s.enrollments
        (fun e => e.user == user && e.course == course.id)
        .enrollmentDoesNotExist with
    | .error err => (s, .error err)
    | .ok enrollment =>
      let sub : Submission :=
        { id := s.next_submission_id, enrollment := enrollment.id
          choices := selected }
      ({ s with submissions := s.submissions ++ [sub]
                next_submission_id := s.next_submission_id + 1 },
       .ok sub.id)

/-- `question.choice_set.filter(is_correct=True)` (`views.py` line 126):
the choice rows of the question flagged correct. -/
def correct_choices (s : DBState) (q : Question) : List Choice :=
  s.choices.filter (fun c => c.question == q.id && c.is_correct)

/-- `choices.filter(question=question)` (`views.py` line 128): the
submission's resolved choice rows restricted to the given question. -/
def selected_choices (sub_choices : List Choice) (q : Question) : List Choice :=
  sub_choices.filter (fun c => c.question == q.id)

/-- `submission.choices.all()` (`views.py` line 119): the choice rows whose
ids are in the submission's many-to-many relation. -/
def submission_selected (s : DBState) (sub : Submission) : List Choice :=
  s.choices.filter (fun c => sub.choices.contains c.id)

/-- `course.question_set.all()` (`views.py` line 122). -/
def course_questions (s : DBState) (course : Course) : List Question :=
  s.questions.filter (fun q => q.course == course.id)

/-- Python's `set(correct_choices) == set(selected_choices)`
(`views.py` line 131): the two lists of rows contain the same elements. -/
def choice_set_eq (a b : List Choice) : Bool :=
  a.all (fun x => b.contains x) && b.all (fun x => a.contains x)

/-- The loop body of `show_exam_result`: the points the question
contributes to `total_score` — its `grade` when the selected set equals
the correct set, 0 otherwise. -/
def question_award (s : DBState) (sub_choices : List Choice)
    (q : Question) : Int :=
  if choice_set_eq (correct_choices s q) (selected_choices sub_choices q)
  then q.grade else 0

/-- `show_exam_result(request, course_id, submission_id)` (`views.py`
lines 114-139): 404 if the course is missing,
`Submission.objects.get(id=submission_id)` for the submission (raising if
absent), then the accumulation loop over the course's questions.  The view
only reads; the unchanged state is returned alongside `total_score`. -/
def show_exam_result (s : DBState) (course_id submission_id : Nat) :
    DBState × Except DbError Int :=
  match get_course s course_id with
  | none => (s, .error .http404)
  | some course =>
    match objects_get s.submissions (fun x => x.id == submission_id)
        .submissionDoesNotExist with
    | .error err => (s, .error err)
    | .ok submission =>
      let choices := submission_selected s submission
      let questions := course_questions s course
      let total_score := questions.foldl
        (fun acc q =>
          if choice_set_eq (correct_choices s q) (selected_choices choices q)
          then acc + q.grade else acc) 0
      (s, .ok total_score)

/-- `Question.is_get_score(selected_ids)` (`models.py` lines 184-199):
compare the count of the question's correct choices with the count of its
correct choices whose id occurs in `selected_ids`. -/
def is_get_score (s : DBState) (q : Question) (selected_ids : List Nat) : Bool :=
  let all_answers :=
    (s.choices.filter (fun c => c.question == q.id && c.is_correct)).length
  let selected_correct :=
    (s.choices.filter (fun c =>
      c.question == q.id && c.is_correct && selected_ids.contains c.id)).length
  all_answers == selected_correct

/-- Modelled instrumentation for re-grading scenarios: an instructor
toggling a choice's `is_correct` flag in the catalog store (an out-of-band
admin edit, not an operation of `views.py`). -/
def flip_choice (s : DBState) (choice_id : Nat) : DBState :=
  { s with choices := s.choices.map (fun c =>
      if c.id == choice_id then { c with is_correct := !c.is_correct }
      else c) }

/-! ### A concrete populated database, used as test input

Course 1 has three questions: question 1 (50 points, correct choice {1},
wrong choice 2), question 2 (30 points, correct choices {3, 4}) and
question 3 (20 points, no correct choice, wrong choice 5).  Course 2 has
question 4 (10 points, correct choice {6}).  User 7 is enrolled in both
courses and submission 1 (enrollment 1, hence course 1) selects choices
{1, 3, 4}. -/

def course1ex : Course := { id := 1, name := "c1", total_enrollment := 1 }

def course2ex : Course := { id := 2, name := "c2", total_enrollment := 1 }

def q1ex : Question := { id := 1, course := 1, content := "q1", grade := 50 }

def q2ex : Question := { id := 2, course := 1, content := "q2", grade := 30 }

def q3ex : Question := { id := 3, course := 1, content := "q3", grade := 20 }

def q4ex : Question := { id := 4, course := 2, content := "q4", grade := 10 }

def e1ex : Enrollment := { id := 1, user := 7, course := 1, mode := "honor" }

def e2ex : Enrollment := { id := 2, user := 7, course := 2, mode := "honor" }

def sub1ex : Submission := { id := 1, enrollment := 1, choices := [1, 3, 4] }

def exState : DBState :=
  { courses := [course1ex, course2ex]
    questions := [q1ex, q2ex, q3ex, q4ex]
    choices :=
      [ { id := 1, question := 1, content := "a", is_correct := true }
      , { id := 2, question := 1, content := "b", is_correct := false }
      , { id := 3, question := 2, content := "c", is_correct := true }
      , { id := 4, question := 2, content := "d", is_correct := true }
      , { id := 5, question := 3, content := "e", is_correct := false }
      , { id := 6, question := 4, content := "f", is_correct := true } ]
    enrollments := [e1ex, e2ex]
    submissions := [sub1ex]
    next_enrollment_id := 3
    next_submission_id := 2 }

/-- A minimal database for the zero-correct-choices edge case: course 1
has a single 50-point question whose only choice is wrong, and
submission 1 selects nothing. -/

def course1c2 : Course := { id := 1, name := "c", total_enrollment := 1 }

def q1c2 : Question := { id := 1, course := 1, content := "q", grade := 50 }

def sub1c2 : Submission := { id := 1, enrollment := 1, choices := [] }

def c2State : DBState :=
  { courses := [course1c2]
    questions := [q1c2]
    choices := [{ id := 1, question := 1, content := "a", is_correct := false }]
    enrollments := [{ id := 1, user := 7, course := 1, mode := "honor" }]
    submissions := [sub1c2]
    next_enrollment_id := 2
    next_submission_id := 2 }

/-! ### Helper lemmas -/

/-- The accumulation loop of `show_exam_result` computes the sum of the
per-question awards. -/
lemma foldl_grade_eq_sum (s : DBState) (ch : List Choice)
    (l : List Question) (acc : Int) :
    l.foldl (fun acc q =>
      if choice_set_eq (correct_choices s q) (selected_choices ch q)
      then acc + q.grade else acc) acc
    = acc + (l.map (question_award s ch)).sum := by
  induction l generalizing acc with
  | nil => simp
  | cons q l ih =>
    simp only [List.foldl_cons, List.map_cons, List.sum_cons, ih,
      question_award]
    by_cases h : choice_set_eq (correct_choices s q) (selected_choices ch q)
      = true
    · simp [h]; ring
    · simp [h]

/-- Python's set comparison of two lists of rows agrees with equality of
the corresponding finite sets. -/
lemma choice_set_eq_iff (a b : List Choice) :
    choice_set_eq a b = true ↔ a.toFinset = b.toFinset := by
  simp only [choice_set_eq, Bool.and_eq_true, List.all_eq_true,
    List.contains, List.elem_iff, Finset.ext_iff, List.mem_toFinset]
  constructor
  · rintro ⟨h1, h2⟩ x
    exact ⟨fun hx => h1 x hx, fun hx => h2 x hx⟩
  · intro h
    exact ⟨fun x hx => (h x).1 hx, fun x hx => (h x).2 hx⟩

/-- The empty selection matches the empty answer key. -/
lemma question_award_empty (s : DBState) (ch : List Choice) (q : Question)
    (hcor : correct_choices s q = [])
    (hsel : selected_choices ch q = []) :
    question_award s ch q = q.grade := by
  simp [question_award, hcor, hsel, choice_set_eq]

/-- Bumping the enrollment counter of the courses with a given id commutes
with looking that id up. -/
lemma find?_map_bump (l : List Course) (cid : Nat) :
    (l.map (fun c =>
        if c.id == cid then { c with total_enrollment := c.total_enrollment + 1 }
        else c)).find? (fun c => c.id == cid)
    = (l.find? (fun c => c.id == cid)).map
        (fun c => { c with total_enrollment := c.total_enrollment + 1 }) := by
  induction l with
  | nil => rfl
  | cons c l ih =>
    by_cases h : c.id = cid
    · simp [List.find?_cons, h, -List.find?_map]
    · simpa [List.find?_cons, h, -List.find?_map] using ih

/-! ### Enrollment-counter invariants -/

/-- Number of `Enrollment` rows for a course. -/
def enrollment_rows (s : DBState) (cid : Nat) : Nat :=
  (s.enrollments.filter (fun e => e.course == cid)).length

/-- Number of distinct learners having an `Enrollment` for a course. -/
def distinct_learners (s : DBState) (cid : Nat) : Nat :=
  (((s.enrollments.filter (fun e => e.course == cid)).map
    (fun e => e.user)).toFinset).card

/-- Every course's counter equals its number of `Enrollment` rows. -/
def counters_match_rows (s : DBState) : Bool :=
  s.courses.all (fun c => c.total_enrollment == (enrollment_rows s c.id : Int))

/-- Every course's counter equals its number of distinct enrolled
learners. -/
def counters_match_distinct (s : DBState) : Bool :=
  s.courses.all (fun c => c.total_enrollment == (distinct_learners s c.id : Int))

/-- Inserting an enrollment row for a learner not yet enrolled in the
course, while bumping that course's counter, preserves the
distinct-learner counter invariant. -/
lemma distinct_after_insert (s : DBState) (uid : Nat) (course : Course)
    (hnew : (s.enrollments.filter
      (fun e => e.user == uid && e.course == course.id)).length = 0)
    (hs : counters_match_distinct s = true) :
    counters_match_distinct
      { s with
        courses := s.courses.map (fun c =>
          if c.id == course.id then
            { c with total_enrollment := c.total_enrollment + 1 }
          else c)
        enrollments := s.enrollments ++
          [{ id := s.next_enrollment_id, user := uid, course := course.id
             mode := "honor" }]
        next_enrollment_id := s.next_enrollment_id + 1 } = true := by
  rw [counters_match_distinct, List.all_eq_true] at hs ⊢
  intro c' hc'
  rw [List.mem_map] at hc'
  obtain ⟨c, hc, rfl⟩ := hc'
  have hc0 := hs c hc
  rw [beq_iff_eq] at hc0
  have hfilter0 : s.enrollments.filter
      (fun e => e.user == uid && e.course == course.id) = [] :=
    List.length_eq_zero.mp hnew
  by_cases h : c.id = course.id
  · have huid : uid ∉ ((s.enrollments.filter
        (fun e => e.course == c.id)).map (fun e => e.user)).toFinset := by
      rw [List.mem_toFinset, List.mem_map]
      rintro ⟨e, he, hue⟩
      rw [List.mem_filter] at he
      have hmem : e ∈ s.enrollments.filter
          (fun e => e.user == uid && e.course == course.id) := by
        rw [List.mem_filter]
        refine ⟨he.1, ?_⟩
        have hec := he.2
        simp only [beq_iff_eq] at hec
        simp only [Bool.and_eq_true, beq_iff_eq]
        exact ⟨hue, by rw [hec, h]⟩
      rw [hfilter0] at hmem
      exact (List.not_mem_nil e) hmem
    have hcard : distinct_learners
        { s with
          courses := s.courses.map (fun c =>
            if c.id == course.id then
              { c with total_enrollment := c.total_enrollment + 1 }
            else c)
          enrollments := s.enrollments ++
            [{ id := s.next_enrollment_id, user := uid, course := course.id
               mode := "honor" }]
          next_enrollment_id := s.next_enrollment_id + 1 } c.id
        = distinct_learners s c.id + 1 := by
      simp only [distinct_learners, List.filter_append, List.map_append,
        List.toFinset_append]
      have hone : (List.filter (fun e => e.course == c.id)
          [({ id := s.next_enrollment_id, user := uid, course := course.id
              mode := "honor" } : Enrollment)])
          = [{ id := s.next_enrollment_id, user := uid, course := course.id
               mode := "honor" }] := by
        simp [h]
      rw [hone]
      simp only [List.map_cons, List.map_nil, List.toFinset_cons,
        List.toFinset_nil, insert_emptyc_eq]
      rw [Finset.union_comm, ← Finset.insert_eq]
      exact Finset.card_insert_of_not_mem huid
    simp only [if_pos (show (c.id == course.id) = true by simpa using h)]
    rw [beq_iff_eq]
    show c.total_enrollment + 1 = _
    rw [hcard, hc0]
    push_cast
    ring
  · have hcard : distinct_learners
        { s with
          courses := s.courses.map (fun c =>
            if c.id == course.id then
              { c with total_enrollment := c.total_enrollment + 1 }
            else c)
          enrollments := s.enrollments ++
            [{ id := s.next_enrollment_id, user := uid, course := course.id
               mode := "honor" }]
          next_enrollment_id := s.next_enrollment_id + 1 } c.id
        = distinct_learners s c.id := by
      simp only [distinct_learners, List.filter_append]
      have hzero : (List.filter (fun e => e.course == c.id)
          [({ id := s.next_enrollment_id, user := uid, course := course.id
              mode := "honor" } : Enrollment)]) = [] := by
        have hcc : (course.id == c.id) = false :=
          beq_eq_false_iff_ne.mpr (fun he => h he.symm)
        simp [hcc]
      rw [hzero, List.append_nil]
    simp only [if_neg (show ¬ (c.id == course.id) = true by simpa using h)]
    rw [beq_iff_eq]
    rw [hcard]
    exact hc0

/-- One `enroll` call preserves the distinct-learner counter invariant. -/
lemma enroll_preserves_distinct (s : DBState) (user : Option Nat) (cid : Nat)
    (hs : counters_match_distinct s = true) :
    counters_match_distinct (enroll s user cid).1 = true := by
  unfold enroll
  cases hcourse : get_course s cid with
  | none => simpa using hs
  | some course =>
    cases user with
    | none => simpa using hs
    | some uid =>
      cases hen : check_if_enrolled s (some uid) course with
      | true => simpa [hen] using hs
      | false =>
        have hnew : (s.enrollments.filter
            (fun e => e.user == uid && e.course == course.id)).length = 0 := by
          simp only [check_if_enrolled, decide_eq_false_iff_not,
            Nat.not_lt, Nat.le_zero] at hen
          exact hen
        simpa [hen] using distinct_after_insert s uid course hnew hs

/-- Any finite sequence of sequential `enroll` calls preserves the
distinct-learner counter invariant. -/
lemma enroll_foldl_distinct (calls : List (Option Nat × Nat)) (s : DBState)
    (hs : counters_match_distinct s = true) :
    counters_match_distinct
      (calls.foldl (fun st p => (enroll st p.1 p.2).1) s) = true := by
  induction calls generalizing s with
  | nil => exact hs
  | cons p calls ih =>
    exact ih _ (enroll_preserves_distinct s p.1 p.2 hs)

/-! ### Normal form of a successful grading call -/

/-- When both the course and the submission exist, `show_exam_result`
succeeds and its `total_score` is the sum of the per-question awards over
the course's questions. -/
lemma show_exam_result_ok (s : DBState) (cid sid : Nat)
    (course : Course) (sub : Submission)
    (hc : get_course s cid = some course)
    (hs : objects_get s.submissions (fun x => x.id == sid)
      DbError.submissionDoesNotExist = Except.ok sub) :
    (show_exam_result s cid sid).2
    = Except.ok (((course_questions s course).map
        (question_award s (submission_selected s sub))).sum) := by
  unfold show_exam_result
  rw [hc, hs]
  simp only [foldl_grade_eq_sum, zero_add]

/-- The loop body's Python set comparison, restated as equality of finite
sets of rows. -/
lemma question_award_eq_finset (s : DBState) (ch : List Choice)
    (q : Question) :
    question_award s ch q
    = if (selected_choices ch q).toFinset = (correct_choices s q).toFinset
      then q.grade else 0 := by
  unfold question_award
  by_cases hfin : (selected_choices ch q).toFinset
      = (correct_choices s q).toFinset
  · rw [if_pos ((choice_set_eq_iff _ _).mpr hfin.symm), if_pos hfin]
  · rw [if_neg (fun hb => hfin ((choice_set_eq_iff _ _).mp hb).symm),
      if_neg hfin]

/-! ### Claim theorems -/

/-- C1: For every course and submission, `show_exam_result` returns a
`total_score` equal to the sum, over the course's questions, of the
question's point value when the set of the submission's selected choices
belonging to that question equals the set of that question's choices
flagged correct, and 0 for that question otherwise. -/
theorem grade_totalScore_exact_match_sum (s : DBState) (cid sid : Nat)
    (course : Course) (sub : Submission) (t : Int)
    (hc : get_course s cid = some course)
    (hs : objects_get s.submissions (fun x => x.id == sid)
      DbError.submissionDoesNotExist = Except.ok sub)
    (ht : (show_exam_result s cid sid).2 = Except.ok t) :
    t = ((course_questions s course).map (fun q =>
      if (selected_choices (submission_selected s sub) q).toFinset
         = (correct_choices s q).toFinset
      then q.grade else 0)).sum := by
  rw [show_exam_result_ok s cid sid course sub hc hs] at ht
  simp only [Except.ok.injEq] at ht
  rw [← ht]
  have hfun : question_award s (submission_selected s sub)
      = fun q =>
        if (selected_choices (submission_selected s sub) q).toFinset
           = (correct_choices s q).toFinset
        then q.grade else 0 :=
    funext (question_award_eq_finset s (submission_selected s sub))
  rw [hfun]

/-- Witness for C1 at the populated database: submission 1 on course 1
scores 50 + 30 + 20 = 100. -/
theorem grade_totalScore_exact_match_sum_witness :
    (100 : Int) = ((course_questions exState course1ex).map (fun q =>
      if (selected_choices (submission_selected exState sub1ex) q).toFinset
         = (correct_choices exState q).toFinset
      then q.grade else 0)).sum :=
  grade_totalScore_exact_match_sum exState 1 1 course1ex sub1ex 100
    rfl rfl rfl

/-- C2 counterexample: in `c2State` the only question of course 1 has
zero correct choices and submission 1 selects nothing, yet
`show_exam_result` awards the question its full 50 points (total 50),
not 0. -/
theorem grade_zero_correct_scores_zero_counterexample :
    correct_choices c2State q1c2 = []
    ∧ selected_choices (submission_selected c2State sub1c2) q1c2 = []
    ∧ course_questions c2State course1c2 = [q1c2]
    ∧ (show_exam_result c2State 1 1).2 = Except.ok 50
    ∧ (show_exam_result c2State 1 1).2 ≠ Except.ok 0 := by
  refine ⟨rfl, rfl, rfl, rfl, ?_⟩
  intro h
  have h50 : Except.ok (ε := DbError) (50 : Int) = Except.ok 0 := h
  injection h50 with h50
  exact absurd h50 (by decide)

/-- C2 amended: a question with zero correct choices for which the
submission selects no choices is awarded its full point value by the
grading loop, not 0. -/
theorem grade_zero_correct_awards_full (s : DBState) (ch : List Choice)
    (q : Question)
    (hcor : correct_choices s q = [])
    (hsel : selected_choices ch q = []) :
    question_award s ch q = q.grade :=
  question_award_empty s ch q hcor hsel

/-- Witness for the amended C2: the zero-correct question of `c2State`
is awarded its 50 points. -/
theorem grade_zero_correct_awards_full_witness :
    question_award c2State (submission_selected c2State sub1c2) q1c2
      = q1c2.grade :=
  grade_zero_correct_awards_full c2State
    (submission_selected c2State sub1c2) q1c2 rfl rfl

/-- C3: a question with zero correct choices for which the submission
selects no choices contributes its full point value to the total: the
total equals that question's grade plus the awards of the remaining
questions. -/
theorem grade_empty_question_full_points (s : DBState) (cid sid : Nat)
    (course : Course) (sub : Submission) (q : Question) (t : Int)
    (hc : get_course s cid = some course)
    (hs : objects_get s.submissions (fun x => x.id == sid)
      DbError.submissionDoesNotExist = Except.ok sub)
    (hq : q ∈ course_questions s course)
    (hcor : correct_choices s q = [])
    (hsel : selected_choices (submission_selected s sub) q = [])
    (ht : (show_exam_result s cid sid).2 = Except.ok t) :
    t = q.grade + (((course_questions s course).erase q).map
        (question_award s (submission_selected s sub))).sum := by
  rw [show_exam_result_ok s cid sid course sub hc hs] at ht
  simp only [Except.ok.injEq] at ht
  rw [← ht]
  have hperm : (course_questions s course).Perm
      (q :: (course_questions s course).erase q) :=
    List.perm_cons_erase hq
  rw [((hperm.map (question_award s (submission_selected s sub)))).sum_eq,
    List.map_cons, List.sum_cons,
    question_award_empty s (submission_selected s sub) q hcor hsel]

/-- Witness for C3 at the populated database: question 3 (20 points, no
correct choice, nothing selected) contributes its full 20 points to the
total of 100. -/
theorem grade_empty_question_full_points_witness :
    (100 : Int) = q3ex.grade
      + (((course_questions exState course1ex).erase q3ex).map
          (question_award exState (submission_selected exState sub1ex))).sum :=
  grade_empty_question_full_points exState 1 1 course1ex sub1ex q3ex 100
    rfl rfl (by decide) rfl rfl rfl

/-- C4: for an authenticated learner not yet enrolled, calling `enroll`
twice for the same (learner, course) pair leaves exactly one `Enrollment`
row for the pair, increments the course's `total_enrollment` by exactly 1
in total, and the second call is a no-op. -/
theorem enroll_twice_idempotent (s : DBState) (uid cid : Nat)
    (course : Course)
    (hc : get_course s cid = some course)
    (h0 : (s.enrollments.filter
      (fun e => e.user == uid && e.course == cid)).length = 0) :
    (enroll (enroll s (some uid) cid).1 (some uid) cid).1
      = (enroll s (some uid) cid).1
    ∧ ((enroll (enroll s (some uid) cid).1 (some uid) cid).1.enrollments.filter
        (fun e => e.user == uid && e.course == cid)).length = 1
    ∧ ∃ c2, get_course
        (enroll (enroll s (some uid) cid).1 (some uid) cid).1 cid = some c2
        ∧ c2.total_enrollment = course.total_enrollment + 1 := by
  have hcid : course.id = cid := by
    have hp := List.find?_some hc
    simpa using hp
  have hen : check_if_enrolled s (some uid) course = false := by
    simp only [check_if_enrolled, hcid, h0, decide_eq_false_iff_not]
    omega
  have hs1 : (enroll s (some uid) cid).1
      = { s with
          courses := s.courses.map (fun c =>
            if c.id == course.id then
              { c with total_enrollment := c.total_enrollment + 1 }
            else c)
          enrollments := s.enrollments ++
            [{ id := s.next_enrollment_id, user := uid, course := course.id
               mode := "honor" }]
          next_enrollment_id := s.next_enrollment_id + 1 } := by
    unfold enroll
    rw [hc]
    simp [hen]
  have hg1 : get_course (enroll s (some uid) cid).1 cid
      = some { course with total_enrollment := course.total_enrollment + 1 } := by
    rw [hs1]
    unfold get_course at hc ⊢
    simp only [hcid]
    rw [find?_map_bump, hc]
    simp [hcid]
  have hfilter1 : ((enroll s (some uid) cid).1.enrollments.filter
      (fun e => e.user == uid && e.course == cid)).length = 1 := by
    rw [hs1]
    simp only [List.filter_append, List.length_append, h0]
    simp [hcid]
  have hen2 : check_if_enrolled (enroll s (some uid) cid).1 (some uid)
      { course with total_enrollment := course.total_enrollment + 1 } = true := by
    simp only [check_if_enrolled, decide_eq_true_eq]
    have : (({ course with
        total_enrollment := course.total_enrollment + 1 } : Course)).id
        = cid := hcid
    rw [this, hfilter1]
    omega
  have hs2 : (enroll (enroll s (some uid) cid).1 (some uid) cid).1
      = (enroll s (some uid) cid).1 := by
    conv_lhs => rw [enroll]
    rw [hg1]
    simp [hen2]
  refine ⟨hs2, ?_, ?_⟩
  · rw [hs2]
    exact hfilter1
  · exact ⟨{ course with total_enrollment := course.total_enrollment + 1 },
      by rw [hs2, hg1], rfl⟩

/-- Witness for C4: enrolling user 8 twice in course 1 of the populated
database yields one row for the pair and counter 1 + 1 = 2. -/
theorem enroll_twice_idempotent_witness :
    (enroll (enroll exState (some 8) 1).1 (some 8) 1).1
      = (enroll exState (some 8) 1).1
    ∧ ((enroll (enroll exState (some 8) 1).1 (some 8) 1).1.enrollments.filter
        (fun e => e.user == 8 && e.course == 1)).length = 1
    ∧ ∃ c2, get_course
        (enroll (enroll exState (some 8) 1).1 (some 8) 1).1 1 = some c2
        ∧ c2.total_enrollment = course1ex.total_enrollment + 1 :=
  enroll_twice_idempotent exState 8 1 course1ex rfl rfl

/-- C5: starting from a state where every course's counter matches its
number of `Enrollment` rows and its number of distinct enrolled learners,
any finite sequence of sequential `enroll` calls preserves the invariant
that every course's `total_enrollment` equals the count of distinct
learners enrolled in it. -/
theorem enroll_sequence_counter_consistency (s : DBState)
    (calls : List (Option Nat × Nat))
    (_hrows : counters_match_rows s = true)
    (hdist : counters_match_distinct s = true) :
    counters_match_distinct
      (calls.foldl (fun st p => (enroll st p.1 p.2).1) s) = true :=
  enroll_foldl_distinct calls s hdist

/-- Witness for C5: a mixed call sequence (fresh learner, anonymous
caller, duplicate enroll, missing course) keeps the invariant on the
populated database. -/
theorem enroll_sequence_counter_consistency_witness :
    counters_match_distinct
      (([(some 8, 1), (none, 2), (some 8, 1), (some 9, 3)] :
          List (Option Nat × Nat)).foldl
        (fun st p => (enroll st p.1 p.2).1) exState) = true :=
  enroll_sequence_counter_consistency exState
    [(some 8, 1), (none, 2), (some 8, 1), (some 9, 3)] rfl rfl

/-- C6 counterexample: submission 1 belongs to enrollment 1, which is in
course 1, yet grading it against course 2 succeeds with a score (0) rather
than failing: `show_exam_result` never checks that the submission belongs
to the given course's enrollment chain. -/
theorem grade_cross_course_counterexample :
    objects_get exState.submissions (fun x => x.id == 1)
      DbError.submissionDoesNotExist = Except.ok sub1ex
    ∧ sub1ex.enrollment = e1ex.id
    ∧ e1ex.course = 1
    ∧ get_course exState 2 = some course2ex
    ∧ course2ex.id ≠ e1ex.course
    ∧ (show_exam_result exState 2 1).2 = Except.ok 0 :=
  ⟨rfl, rfl, rfl, rfl, by decide, rfl⟩

/-- C6 amended: whenever the course and the submission both exist,
`show_exam_result` returns a score, with no check that the submission
belongs to the given course's enrollment chain. -/
theorem grade_no_ownership_check (s : DBState) (cid sid : Nat)
    (course : Course) (sub : Submission)
    (hc : get_course s cid = some course)
    (hs : objects_get s.submissions (fun x => x.id == sid)
      DbError.submissionDoesNotExist = Except.ok sub) :
    ∃ t, (show_exam_result s cid sid).2 = Except.ok t :=
  ⟨_, show_exam_result_ok s cid sid course sub hc hs⟩

/-- Witness for the amended C6: grading course 2 against course 1's
submission 1 returns a score. -/
theorem grade_no_ownership_check_witness :
    ∃ t, (show_exam_result exState 2 1).2 = Except.ok t :=
  grade_no_ownership_check exState 2 1 course2ex sub1ex rfl rfl

/-- C7: submitting for a course in which the learner has no enrollment
fails with the `Enrollment.DoesNotExist` error (the spec's NotEnrolled)
and leaves the state — in particular the submission table — unchanged. -/
theorem submit_unenrolled_rejected (s : DBState) (uid cid : Nat)
    (course : Course) (selected : List Nat)
    (hc : get_course s cid = some course)
    (h0 : s.enrollments.filter
      (fun e => e.user == uid && e.course == cid) = []) :
    submit s uid cid selected
      = (s, Except.error DbError.enrollmentDoesNotExist) := by
  have hcid : course.id = cid := by simpa using List.find?_some hc
  unfold submit objects_get
  simp only [hc]
  rw [hcid, h0]

/-- Witness for C7: user 9 is not enrolled in course 1 of the populated
database; submitting fails and creates nothing. -/
theorem submit_unenrolled_rejected_witness :
    submit exState 9 1 []
      = (exState, Except.error DbError.enrollmentDoesNotExist) :=
  submit_unenrolled_rejected exState 9 1 course1ex [] rfl rfl

/-- C8: for an existing course, an anonymous `enroll` call is a no-op
rather than an error: the state — enrollment rows and counters included —
is returned unchanged together with the success redirect. -/
theorem enroll_anonymous_noop (s : DBState) (cid : Nat) (course : Course)
    (hc : get_course s cid = some course) :
    enroll s none cid = (s, Except.ok ()) := by
  unfold enroll
  rw [hc]

/-- Witness for C8: an anonymous enroll into course 1 of the populated
database changes nothing. -/
theorem enroll_anonymous_noop_witness :
    enroll exState none 1 = (exState, Except.ok ()) :=
  enroll_anonymous_noop exState 1 course1ex rfl

/-- C9: grading modifies no persisted state (the returned state is the
input state, for every input), and its result is a function of the
current persisted state: flipping choice 2's `is_correct` flag changes
the score of submission 1 on course 1 from 100 to 50. -/
theorem grade_pure_and_reflects_current_key :
    (∀ (s : DBState) (cid sid : Nat), (show_exam_result s cid sid).1 = s)
    ∧ (show_exam_result exState 1 1).2 = Except.ok 100
    ∧ (show_exam_result (flip_choice exState 2) 1 1).2 = Except.ok 50
    ∧ (100 : Int) ≠ 50 := by
  refine ⟨?_, rfl, rfl, by decide⟩
  intro s cid sid
  unfold show_exam_result
  cases get_course s cid with
  | none => rfl
  | some course =>
    cases objects_get s.submissions (fun x => x.id == sid)
        DbError.submissionDoesNotExist with
    | error e => rfl
    | ok sub => rfl

/-- C10: `Question.is_get_score` returns `True` whenever every correct
choice of the question is among the selected ids — extra incorrect
selections of the same question included — and is therefore strictly
more lenient than the exact-set-equality test of `show_exam_result`:
selecting choices {1, 2} on question 1 (correct set {1}) passes
`is_get_score` but fails the set-equality test. -/
theorem is_get_score_lenient :
    (∀ (s : DBState) (q : Question) (sel : List Nat),
      (∀ c ∈ s.choices, c.question = q.id → c.is_correct = true →
        c.id ∈ sel) →
      is_get_score s q sel = true)
    ∧ is_get_score exState q1ex [1, 2] = true
    ∧ choice_set_eq (correct_choices exState q1ex)
        (selected_choices (submission_selected exState
          { id := 2, enrollment := 1, choices := [1, 2] }) q1ex) = false := by
  refine ⟨?_, rfl, rfl⟩
  intro s q sel hall
  simp only [is_get_score]
  have hfe : s.choices.filter (fun c => c.question == q.id && c.is_correct)
      = s.choices.filter
          (fun c => c.question == q.id && c.is_correct
            && sel.contains c.id) := by
    apply List.filter_congr
    intro c hcmem
    by_cases h1 : (c.question == q.id && c.is_correct) = true
    · have hqid : c.question = q.id := by
        have h1c := h1
        rw [Bool.and_eq_true, beq_iff_eq] at h1c
        exact h1c.1
      have hcor : c.is_correct = true := by
        have h1c := h1
        rw [Bool.and_eq_true] at h1c
        exact h1c.2
      have hmem : c.id ∈ sel := hall c hcmem hqid hcor
      simp [h1, hmem]
    · have h1f : (c.question == q.id && c.is_correct) = false :=
        eq_false_of_ne_true h1
      simp [h1f]
  rw [hfe]
  simp

/-- Witness for C10: all of question 2's correct choices {3, 4} appear in
the selection [3, 4, 5] (with the extra wrong choice 5), so
`is_get_score` passes. -/
theorem is_get_score_lenient_witness :
    is_get_score exState q2ex [3, 4, 5] = true :=
  is_get_score_lenient.1 exState q2ex [3, 4, 5] (by decide)

end OnlineCourse
